import Mathlib

/-!
Verification of the svelte-http-client library (src/lib/index.ts): a shallow
embedding of its Promisable reactive-future core, its error-classification
transform, its HTTP verb helpers and its `SvelteHttpClient` class, together
with theorems settling the specification's claims about them.

Modelling conventions:
* A JavaScript value that can appear in a `RequestInit` options object or a
  JSON body is a `JsVal`; a plain object is modelled by its list of key/value
  bindings in which a later binding shadows an earlier one, so object spread
  `\x7b...a, ...b\x7d` is list append (`jsSpread`).
* A settled promise is a `POutcome E U`: fulfilled with a `U` or rejected with
  a cause `E`.  The library never observes a pending promise (all claims are
  about eventual behaviour), so each promise is modelled by its settlement.
* Handlers passed to `then`/`catch` are `U → POutcome E V`: a handler that
  throws (or returns a rejecting promise) is one returning `POutcome.err`.
* `promThen`, `promCatch`, `promFinally` return the derived settlement paired
  with the number of times the supplied callback was invoked, mirroring when
  the JavaScript runtime calls the handler.
-/

/-- A JavaScript value as used by the library: `null`, booleans, (integral)
numbers, strings, arrays and plain objects.  Number formatting is restricted
to integers; no claim depends on float rendering. -/
inductive JsVal : Type where
  | null : JsVal
  | bool : Bool → JsVal
  | num : Int → JsVal
  | str : String → JsVal
  | arr : List JsVal → JsVal
  | obj : List (String × JsVal) → JsVal

/-- A JavaScript object's bindings; for lookup purposes an object is its list
of key/value pairs in which a LATER binding shadows an earlier one (this makes
object spread a plain append). -/
abbrev Obj : Type := List (String × JsVal)

/-- Property lookup on an object: the latest binding of the key wins, as in a
JavaScript object built left to right. -/
def objGet (o : Obj) (key : String) : Option JsVal :=
  match o with
  | [] => none
  | (k, v) :: rest =>
    match objGet rest key with
    | some w => some w
    | none => if k = key then some v else none

/-- JavaScript object spread `\x7b...a, ...b\x7d`: the result binds every key of
`a` and of `b`, with the bindings of `b` shadowing those of `a`. -/
def jsSpread (a b : Obj) : Obj := a ++ b

/-- The later-wins reading of spread: a lookup in `\x7b...a, ...b\x7d` is the lookup
in `b`, falling back to `a`. -/
theorem objGet_jsSpread (a b : Obj) (key : String) :
    objGet (jsSpread a b) key = ((objGet b key).orElse fun _ => objGet a key) := by
  induction a with
  | nil => cases h : objGet b key <;> simp [jsSpread, objGet, Option.orElse, h]
  | cons hd tl ih =>
    obtain ⟨k, v⟩ := hd
    cases h : objGet b key <;> cases h2 : objGet tl key <;>
      simp_all [jsSpread, objGet, Option.orElse]

/-- Looks a single header up inside the `headers` property of a `RequestInit`
options object (the shape the library's scenarios use). -/
def getHeader (opts : Obj) (name : String) : Option JsVal :=
  match objGet opts "headers" with
  | some (JsVal.obj h) => objGet h name
  | _ => none

/-- Settlement of a promise: fulfilled with a value of type `U`, or rejected
with a cause of type `E`. -/
inductive POutcome (E U : Type) : Type where
  | ok : U → POutcome E U
  | err : E → POutcome E U

/-- Model of `promise.then(onfulfilled)`: on fulfilment the handler runs (its
own throw/rejection becomes the derived rejection), on rejection the cause
passes through untouched.  The second component counts how many times
`onfulfilled` was invoked. -/
def promThen {E U V : Type} (p : POutcome E U) (onfulfilled : U → POutcome E V) :
    POutcome E V × Nat :=
  match p with
  | POutcome.ok u => (onfulfilled u, 1)
  | POutcome.err e => (POutcome.err e, 0)

/-- Model of `promise.catch(onrejected)`: on rejection the handler runs, on
fulfilment the value passes through untouched.  The second component counts
how many times `onrejected` was invoked. -/
def promCatch {E U : Type} (p : POutcome E U) (onrejected : E → POutcome E U) :
    POutcome E U × Nat :=
  match p with
  | POutcome.ok u => (POutcome.ok u, 0)
  | POutcome.err e => (onrejected e, 1)

/-- Model of `promise.finally(onfinally)` for a side-effect-only callback (the
source types it `() => void`): it is invoked exactly once when the promise
settles, success or failure alike, and the settlement passes through
unchanged.  The second component counts the callback's invocations. -/
def promFinally {E U : Type} (p : POutcome E U) : POutcome E U × Nat :=
  (p, 1)

/-- The library's `Promisable<T, U>`: an initial (placeholder) value shown to
subscribers before settlement, together with the wrapped promise.  The cause
type `E` is a parameter (the source types rejection causes as `any`). -/
structure Promisable (T E U : Type) : Type where
  initialValue : T
  promise : POutcome E U

/-- The `promisable` factory from the source: captures the initial value and
the promise. -/
def promisable {T E U : Type} (initialValue : T) (promise : POutcome E U) :
    Promisable T E U :=
  ⟨initialValue, promise⟩

/-- `then$`: a new `Promisable` with the same initial value over
`_promise.then(onfulfilled)`. -/
def thenS {T E U V : Type} (f : Promisable T E U) (onfulfilled : U → POutcome E V) :
    Promisable T E V :=
  promisable f.initialValue (promThen f.promise onfulfilled).1

/-- How many times `then$`'s handler is invoked for a given receiver. -/
def thenCount {T E U V : Type} (f : Promisable T E U) (onfulfilled : U → POutcome E V) :
    Nat :=
  (promThen f.promise onfulfilled).2

/-- `catch$`: a new `Promisable` with the same initial value over
`_promise.catch(onrejected)`. -/
def catchS {T E U : Type} (f : Promisable T E U) (onrejected : E → POutcome E U) :
    Promisable T E U :=
  promisable f.initialValue (promCatch f.promise onrejected).1

/-- `finally$`: a new `Promisable` with the same initial value over
`_promise.finally(onfinally)`. -/
def finallyS {T E U : Type} (f : Promisable T E U) : Promisable T E U :=
  promisable f.initialValue (promFinally f.promise).1

/-- How many times `finally$`'s callback is invoked for a given receiver. -/
def finallyCount {T E U : Type} (f : Promisable T E U) : Nat :=
  (promFinally f.promise).2

/-- `startWith$`: a new `Promisable` over the SAME promise, with a new initial
value. -/
def startWithS {T E U V : Type} (f : Promisable T E U) (initialValue : V) :
    Promisable V E U :=
  promisable initialValue f.promise

/-- The values a subscriber receives, in order, from `subscribe`: `subscribe`
builds `readable(_initialValue, start)` whose subscriber synchronously
receives the current (initial) value at subscription time, and whose start
function registers ONLY the success continuation `_promise.then(set)`, so the
store is set to the fulfilment value when the promise fulfils and is never
set again when it rejects. -/
def subscribeEmissions {T E U : Type} (f : Promisable T E U) : List (T ⊕ U) :=
  Sum.inl f.initialValue ::
    (match f.promise with
     | POutcome.ok v => [Sum.inr v]
     | POutcome.err _ => [])

/-- Whether the character list `pat` is an initial segment of `s`. -/
def charsAtStart (pat s : List Char) : Bool :=
  match pat, s with
  | [], _ => true
  | _ :: _, [] => false
  | c :: cs, d :: ds => c == d && charsAtStart cs ds

/-- Whether the character list `pat` occurs contiguously inside `s`. -/
def charsContain (s pat : List Char) : Bool :=
  match s with
  | [] => charsAtStart pat []
  | c :: rest => charsAtStart pat (c :: rest) || charsContain rest pat

/-- JavaScript's `s.includes(pat)`: substring containment. -/
def strIncludes (s pat : String) : Bool :=
  charsContain s.toList pat.toList

/-- The check the source performs on a response's headers,
`headers.get('content-type')?.includes('application/json')`: when the header
is absent the optional chain yields `undefined`, which is falsy, so the text
branch is taken. -/
def ctIncludesJson : Option String → Bool
  | some ct => strIncludes ct "application/json"
  | none => false

/-- A single character of `JSON.stringify`'s string escaping (the characters
the library's data can contain; exotic control characters are out of scope of
every claim). -/
def jsonEscapeChar (c : Char) : String :=
  if c = '"' then "\\\""
  else if c = '\\' then "\\\\"
  else if c = '\n' then "\\n"
  else if c = '\r' then "\\r"
  else if c = '\t' then "\\t"
  else String.singleton c

/-- String escaping of `JSON.stringify`. -/
def jsonEscape (s : String) : String :=
  String.join (s.toList.map jsonEscapeChar)

mutual

/-- Model of `JSON.stringify` on `JsVal` (integral numbers only): notably
`JSON.stringify(null)` is the four-character string `"null"`. -/
def jsonStringify : JsVal → String
  | JsVal.null => "null"
  | JsVal.bool b => if b then "true" else "false"
  | JsVal.num n => toString n
  | JsVal.str s => "\"" ++ jsonEscape s ++ "\""
  | JsVal.arr xs => "[" ++ jsonStringifyElems xs ++ "]"
  | JsVal.obj kvs => "\x7b" ++ jsonStringifyMembers kvs ++ "\x7d"

/-- Comma-separated serialization of an array's elements. -/
def jsonStringifyElems : List JsVal → String
  | [] => ""
  | [x] => jsonStringify x
  | x :: y :: xs => jsonStringify x ++ "," ++ jsonStringifyElems (y :: xs)

/-- Comma-separated serialization of an object's members. -/
def jsonStringifyMembers : List (String × JsVal) → String
  | [] => ""
  | [(k, v)] => "\"" ++ jsonEscape k ++ "\":" ++ jsonStringify v
  | (k, v) :: m :: ms =>
    "\"" ++ jsonEscape k ++ "\":" ++ jsonStringify v ++ "," ++ jsonStringifyMembers (m :: ms)

end

/-- The parts of a fetch `Response` the library reads: the `ok` flag, the
numeric status, the status text, the `content-type` header (as returned by
`headers.get`), and the body as each of the two readers the source may call
(`response.json()` giving the parsed value, `response.text()` giving the raw
text). -/
structure Response : Type where
  ok : Bool
  status : Nat
  statusText : String
  contentType : Option String
  jsonBody : JsVal
  textBody : String

/-- Which reader decoded an `HttpError`'s body: `response.json()` (a parsed
structured value) or `response.text()` (the raw text). -/
inductive RespBody : Type where
  | jsonBody : JsVal → RespBody
  | textBody : String → RespBody

/-- The library's `HttpError`: status, status text and decoded body (the
`Error` superclass fields `name` and `message` carry no further data:
`message` is the status text and `name` the class name). -/
structure HttpError : Type where
  status : Nat
  statusText : String
  body : RespBody

/-- The handler `fetchErrorHandled$` chains after `fetch$` (the
error-classification transform): a response with `ok` set passes through
unchanged; otherwise the handler reads the body with `response.json()` when
the `content-type` header includes `application/json` and with
`response.text()` otherwise, and throws an `HttpError` carrying the
response's status, status text and that body. -/
def classifyResponse (r : Response) : POutcome HttpError Response :=
  if r.ok then POutcome.ok r
  else
    POutcome.err
      ⟨r.status, r.statusText,
        if ctIncludesJson r.contentType then RespBody.jsonBody r.jsonBody
        else RespBody.textBody r.textBody⟩

/-- `fetchErrorHandled$` as a transform of the future returned by `fetch$`:
chains `classifyResponse` with `then$`. -/
def fetchErrorHandledS {T : Type} (f : Promisable T HttpError Response) :
    Promisable T HttpError Response :=
  thenS f classifyResponse

/-- The URL object `new URL(endpoint, base)` constructs, kept symbolic: the
endpoint together with the base it is resolved against (WHATWG URL resolution
itself is outside every claim, so the model records the constructor's
arguments rather than the serialized result). A standalone verb call passes
its endpoint through with no base. -/
structure ResolvedUrl : Type where
  endpoint : String
  base : Option String

/-- The request a verb function issues: the URL and the `RequestInit` options
object it passes to `fetch`. -/
structure JsRequest : Type where
  url : ResolvedUrl
  opts : Obj

/-- `get$(endpoint, init)`: issues `fetch` with options
`\x7b...init, method: 'GET'\x7d`. -/
def getS (endpoint : ResolvedUrl) (init : Obj) : JsRequest :=
  ⟨endpoint, jsSpread init [("method", JsVal.str "GET")]⟩

/-- `getJson$(endpoint, init)`: same issued request as `get$`, with JSON
decoding chained onto the resulting future. -/
def getJsonS (endpoint : ResolvedUrl) (init : Obj) : JsRequest :=
  ⟨endpoint, jsSpread init [("method", JsVal.str "GET")]⟩

/-- `post$(endpoint, body, init)`: issues `fetch` with options
`\x7b...init, method: 'POST', body: JSON.stringify(body)\x7d`. -/
def postS (endpoint : ResolvedUrl) (body : JsVal) (init : Obj) : JsRequest :=
  ⟨endpoint,
    jsSpread init [("method", JsVal.str "POST"), ("body", JsVal.str (jsonStringify body))]⟩

/-- `postJson$(endpoint, body, init)`: same issued request as `post$`. -/
def postJsonS (endpoint : ResolvedUrl) (body : JsVal) (init : Obj) : JsRequest :=
  ⟨endpoint,
    jsSpread init [("method", JsVal.str "POST"), ("body", JsVal.str (jsonStringify body))]⟩

/-- `put$(endpoint, body, init)`: issues `fetch` with options
`\x7b...init, method: 'PUT', body: JSON.stringify(body)\x7d`. -/
def putS (endpoint : ResolvedUrl) (body : JsVal) (init : Obj) : JsRequest :=
  ⟨endpoint,
    jsSpread init [("method", JsVal.str "PUT"), ("body", JsVal.str (jsonStringify body))]⟩

/-- `putJson$(endpoint, body, init)`: same issued request as `put$`. -/
def putJsonS (endpoint : ResolvedUrl) (body : JsVal) (init : Obj) : JsRequest :=
  ⟨endpoint,
    jsSpread init [("method", JsVal.str "PUT"), ("body", JsVal.str (jsonStringify body))]⟩

/-- `patch$(endpoint, body, init)`: issues `fetch` with options
`\x7b...init, method: 'PATCH', body: JSON.stringify(body)\x7d`. -/
def patchS (endpoint : ResolvedUrl) (body : JsVal) (init : Obj) : JsRequest :=
  ⟨endpoint,
    jsSpread init [("method", JsVal.str "PATCH"), ("body", JsVal.str (jsonStringify body))]⟩

/-- `patchJson$(endpoint, body, init)`: same issued request as `patch$`. -/
def patchJsonS (endpoint : ResolvedUrl) (body : JsVal) (init : Obj) : JsRequest :=
  ⟨endpoint,
    jsSpread init [("method", JsVal.str "PATCH"), ("body", JsVal.str (jsonStringify body))]⟩

/-- `delete$(endpoint, init)`: issues `fetch` with options
`\x7b...init, method: 'DELETE'\x7d`. -/
def deleteS (endpoint : ResolvedUrl) (init : Obj) : JsRequest :=
  ⟨endpoint, jsSpread init [("method", JsVal.str "DELETE")]⟩

/-- `deleteJson$(endpoint, init)`: same issued request as `delete$`. -/
def deleteJsonS (endpoint : ResolvedUrl) (init : Obj) : JsRequest :=
  ⟨endpoint, jsSpread init [("method", JsVal.str "DELETE")]⟩

/-- The `SvelteHttpClient` class: a base URL (possibly absent) and default
`RequestInit` options, both fixed at construction. -/
structure SvelteHttpClient : Type where
  baseUrl : Option String
  defaultInit : Obj

/-- The client's `get$` method (`SvelteHttpClient.get$`): resolves the
endpoint against the base URL and calls the free `get$` with options
`\x7b...this._init, ...init\x7d`. -/
def clientGetS (c : SvelteHttpClient) (endpoint : String) (init : Obj) : JsRequest :=
  getS (ResolvedUrl.mk endpoint c.baseUrl) (jsSpread c.defaultInit init)

/-- The client's `post$` method (`SvelteHttpClient.post$`): resolves the
endpoint against the base URL and calls the free `post$` with options
`\x7b...this._init, ...init\x7d`. -/
def clientPostS (c : SvelteHttpClient) (endpoint : String) (body : JsVal) (init : Obj) :
    JsRequest :=
  postS (ResolvedUrl.mk endpoint c.baseUrl) body (jsSpread c.defaultInit init)

/-- C2: for every initial placeholder p and operation resolving to v, a
subscriber receives exactly two invocations: the placeholder first (at
subscribe time) and the settled value second (at settlement). -/
theorem c2_subscribe_placeholder_then_value (T E U : Type) (p : T) (v : U) :
    subscribeEmissions (promisable p (POutcome.ok v : POutcome E U)) =
      [Sum.inl p, Sum.inr v] :=
  rfl

/-- C3: when the underlying promise rejects, the subscriber is invoked only
with the initial placeholder and never again: `subscribe` registers only a
success continuation on the promise, so no settlement value and no failure
notification of any kind reaches it. -/
theorem c3_rejection_never_reaches_subscriber (T E U : Type) (p : T) (e : E) :
    subscribeEmissions (promisable p (POutcome.err e : POutcome E U)) = [Sum.inl p] :=
  rfl

/-- C5: if the receiver's operation failed, `then$`'s success handler is
invoked zero times and the derived future fails with exactly the receiver's
cause; and if the receiver succeeded but the handler itself throws (returns a
rejection), the derived future fails with that new cause. -/
theorem c5_thenS_failure_propagation (T E U V : Type) :
    (∀ (f : Promisable T E U) (e : E) (g : U → POutcome E V),
      f.promise = POutcome.err e →
        thenCount f g = 0 ∧ (thenS f g).promise = POutcome.err e) ∧
    (∀ (f : Promisable T E U) (u : U) (g : U → POutcome E V) (e : E),
      f.promise = POutcome.ok u → g u = POutcome.err e →
        (thenS f g).promise = POutcome.err e) := by
  constructor
  · intro f e g h
    constructor
    · simp [thenCount, promThen, h]
    · simp [thenS, promisable, promThen, h]
  · intro f u g e h hg
    simp [thenS, promisable, promThen, h, hg]

/-- C5 witness: the two implications at concrete inputs: a future rejected
with cause 7 propagates 7 without invoking the doubling handler, and a future
fulfilled with 3 whose handler rejects with 9 yields a rejection with 9. -/
theorem c5_thenS_failure_propagation_witness :
    (thenCount (promisable 0 (POutcome.err 7 : POutcome Nat Nat))
        (fun u => POutcome.ok (2 * u)) = 0 ∧
      (thenS (promisable 0 (POutcome.err 7 : POutcome Nat Nat))
        (fun u => POutcome.ok (2 * u))).promise = POutcome.err 7) ∧
    (thenS (promisable 0 (POutcome.ok 3 : POutcome Nat Nat))
        (fun _ => (POutcome.err 9 : POutcome Nat Nat))).promise = POutcome.err 9 :=
  ⟨(c5_thenS_failure_propagation Nat Nat Nat Nat).1
      (promisable 0 (POutcome.err 7)) 7 (fun u => POutcome.ok (2 * u)) rfl,
    (c5_thenS_failure_propagation Nat Nat Nat Nat).2
      (promisable 0 (POutcome.ok 3)) 3 (fun _ => POutcome.err 9) 9 rfl rfl⟩

/-- C6: chaining `f.then$(a).then$(b)` is identical to a single `then$` with
the sequential composition of the handlers (run a; if it throws, propagate;
else run b on its result), both when f succeeds and when anything fails; and
`then$` does not touch the receiver: it builds a new future that keeps the
receiver's placeholder and derives its settlement from the receiver's same
underlying promise. -/
theorem c6_thenS_composition (T E U V W : Type) (f : Promisable T E U)
    (a : U → POutcome E V) (b : V → POutcome E W) :
    thenS (thenS f a) b = thenS f (fun x => (promThen (a x) b).1) ∧
    (thenS f a).initialValue = f.initialValue ∧
    (thenS f a).promise = (promThen f.promise a).1 := by
  refine ⟨?_, rfl, rfl⟩
  cases h : f.promise <;> simp [thenS, promisable, promThen, h]

/-- C7: `startWith$` returns a future wrapping the exact same underlying
promise (so the same eventual settlement and outcome), differing from the
receiver only in its initial placeholder. -/
theorem c7_startWithS_only_placeholder_differs (T E U V : Type)
    (f : Promisable T E U) (q : V) :
    (startWithS f q).promise = f.promise ∧ (startWithS f q).initialValue = q :=
  ⟨rfl, rfl⟩

/-- C8: `finally$`'s callback is invoked exactly once whenever the underlying
operation settles, success or failure alike, and the resulting future keeps
the receiver's settlement and placeholder unchanged. -/
theorem c8_finallyS_once_outcome_unchanged (T E U : Type) (f : Promisable T E U) :
    finallyCount f = 1 ∧ (finallyS f).promise = f.promise ∧
    (finallyS f).initialValue = f.initialValue :=
  ⟨rfl, rfl, rfl⟩

/-- A 404 response with a JSON content type, whose body parses to the object
with member error = "missing" (spec scenario). -/
def resp404 : Response :=
  ⟨false, 404, "Not Found", some "application/json",
    JsVal.obj [("error", JsVal.str "missing")], "\x7b\"error\":\"missing\"\x7d"⟩

/-- A 500 response with a plain-text content type and raw text body "boom"
(spec scenario); its `jsonBody` field is never read because the classifier
takes the text branch. -/
def resp500 : Response :=
  ⟨false, 500, "Internal Server Error", some "text/plain", JsVal.null, "boom"⟩

/-- A successful response, used to exercise the pass-through case. -/
def resp200 : Response :=
  ⟨true, 200, "OK", some "application/json", JsVal.arr [], "[]"⟩

/-- C4: the error-classification transform returns an `ok` response
unchanged; a non-`ok` response makes it fail with an `HttpError` carrying
exactly that response's status, status text, and body — parsed JSON when the
content-type header includes `application/json`, raw text otherwise.  In
particular the two spec scenarios: 404/JSON gives a structured body, and
500/plain-text gives the raw text "boom". -/
theorem c4_classifyResponse_spec :
    (∀ r : Response, r.ok = true → classifyResponse r = POutcome.ok r) ∧
    (∀ r : Response, r.ok = false →
      classifyResponse r =
        POutcome.err
          ⟨r.status, r.statusText,
            if ctIncludesJson r.contentType then RespBody.jsonBody r.jsonBody
            else RespBody.textBody r.textBody⟩) ∧
    classifyResponse resp404 =
      POutcome.err
        ⟨404, "Not Found", RespBody.jsonBody (JsVal.obj [("error", JsVal.str "missing")])⟩ ∧
    classifyResponse resp500 =
      POutcome.err ⟨500, "Internal Server Error", RespBody.textBody "boom"⟩ := by
  refine ⟨?_, ?_, ?_, ?_⟩
  · intro r h; simp [classifyResponse, h]
  · intro r h; simp [classifyResponse, h]
  · rfl
  · rfl

/-- C4 witness: the classifier applied at the concrete 200 and 404 responses,
discharging the two hypotheses of the general statement. -/
theorem c4_classifyResponse_spec_witness :
    classifyResponse resp200 = POutcome.ok resp200 ∧
    classifyResponse resp404 =
      POutcome.err
        ⟨resp404.status, resp404.statusText,
          if ctIncludesJson resp404.contentType then RespBody.jsonBody resp404.jsonBody
          else RespBody.textBody resp404.textBody⟩ :=
  ⟨c4_classifyResponse_spec.1 resp200 rfl, c4_classifyResponse_spec.2.1 resp404 rfl⟩

/-- C9: every verb function issues a request whose `method` is the verb's
own, and POST/PUT/PATCH (and their Json variants) issue a request whose
`body` is the JSON-serialized body argument — even when the caller's init
already binds `method` or `body`, because the verb's bindings are spread
after the caller's init. -/
theorem c9_verb_method_body_override (u : ResolvedUrl) (body : JsVal) (init : Obj) :
    objGet (getS u init).opts "method" = some (JsVal.str "GET") ∧
    objGet (getJsonS u init).opts "method" = some (JsVal.str "GET") ∧
    objGet (postS u body init).opts "method" = some (JsVal.str "POST") ∧
    objGet (postS u body init).opts "body" = some (JsVal.str (jsonStringify body)) ∧
    objGet (postJsonS u body init).opts "method" = some (JsVal.str "POST") ∧
    objGet (postJsonS u body init).opts "body" = some (JsVal.str (jsonStringify body)) ∧
    objGet (putS u body init).opts "method" = some (JsVal.str "PUT") ∧
    objGet (putS u body init).opts "body" = some (JsVal.str (jsonStringify body)) ∧
    objGet (putJsonS u body init).opts "method" = some (JsVal.str "PUT") ∧
    objGet (putJsonS u body init).opts "body" = some (JsVal.str (jsonStringify body)) ∧
    objGet (patchS u body init).opts "method" = some (JsVal.str "PATCH") ∧
    objGet (patchS u body init).opts "body" = some (JsVal.str (jsonStringify body)) ∧
    objGet (patchJsonS u body init).opts "method" = some (JsVal.str "PATCH") ∧
    objGet (patchJsonS u body init).opts "body" = some (JsVal.str (jsonStringify body)) ∧
    objGet (deleteS u init).opts "method" = some (JsVal.str "DELETE") ∧
    objGet (deleteJsonS u init).opts "method" = some (JsVal.str "DELETE") := by
  refine ⟨?_, ?_, ?_, ?_, ?_, ?_, ?_, ?_, ?_, ?_, ?_, ?_, ?_, ?_, ?_, ?_⟩ <;>
    simp [getS, getJsonS, postS, postJsonS, putS, putJsonS, patchS, patchJsonS,
      deleteS, deleteJsonS, objGet_jsSpread, objGet, Option.orElse]

/-- C10: when the body argument of post$/postJson$/put$/putJson$/patch$/
patchJson$ is omitted, the source's parameter default `null` is passed
through `JSON.stringify`, so the issued request carries the four-character
string "null" as its body, not an absent body. -/
theorem c10_omitted_body_serializes_null (u : ResolvedUrl) (init : Obj) :
    objGet (postS u JsVal.null init).opts "body" = some (JsVal.str "null") ∧
    objGet (postJsonS u JsVal.null init).opts "body" = some (JsVal.str "null") ∧
    objGet (putS u JsVal.null init).opts "body" = some (JsVal.str "null") ∧
    objGet (putJsonS u JsVal.null init).opts "body" = some (JsVal.str "null") ∧
    objGet (patchS u JsVal.null init).opts "body" = some (JsVal.str "null") ∧
    objGet (patchJsonS u JsVal.null init).opts "body" = some (JsVal.str "null") ∧
    jsonStringify JsVal.null = "null" ∧ ("null" : String).length = 4 := by
  refine ⟨?_, ?_, ?_, ?_, ?_, ?_, rfl, rfl⟩ <;>
    simp [postS, postJsonS, putS, putJsonS, patchS, patchJsonS,
      objGet_jsSpread, objGet, Option.orElse, jsonStringify]

/-- The C1 scenario's client: default options with header x = "1". -/
def c1Client : SvelteHttpClient :=
  ⟨some "https://api.example.com/", [("headers", JsVal.obj [("x", JsVal.str "1")])]⟩

/-- The C1 scenario's first call: `get$` with per-call options binding
headers to the object with y = "2". -/
def c1RequestBoth : JsRequest :=
  clientGetS c1Client "posts" [("headers", JsVal.obj [("y", JsVal.str "2")])]

/-- The C1 scenario's second call: `get$` with per-call options binding
headers to the object with x = "2". -/
def c1RequestOverride : JsRequest :=
  clientGetS c1Client "posts" [("headers", JsVal.obj [("x", JsVal.str "2")])]

/-- C1 counterexample: contrary to the claim, the request issued for the
first scenario does NOT contain both headers — the default header x = "1" is
gone, because the shallow merge replaces the whole `headers` object with the
per-call one. -/
theorem c1_both_headers_counterexample :
    ¬ (getHeader c1RequestBoth.opts "x" = some (JsVal.str "1") ∧
       getHeader c1RequestBoth.opts "y" = some (JsVal.str "2")) := by
  intro h
  have h1 := h.1
  rw [show getHeader c1RequestBoth.opts "x" = none from rfl] at h1
  exact Option.noConfusion h1

/-- C1 amended: the merge of client defaults with per-call options is the
shallow spread with per-call values winning per KEY, so a per-call `headers`
object replaces the default `headers` object entirely: the first scenario's
request carries header y = "2" and has lost the default x = "1"; the second
scenario's request carries the per-call x = "2"; and in general a lookup in
the merged options is the per-call lookup, falling back to the defaults. -/
theorem c1_shallow_merge_headers :
    getHeader c1RequestBoth.opts "x" = none ∧
    getHeader c1RequestBoth.opts "y" = some (JsVal.str "2") ∧
    objGet c1RequestBoth.opts "headers" = some (JsVal.obj [("y", JsVal.str "2")]) ∧
    getHeader c1RequestOverride.opts "x" = some (JsVal.str "2") ∧
    (∀ (defaults perCall : Obj) (key : String),
      objGet (jsSpread defaults perCall) key =
        ((objGet perCall key).orElse fun _ => objGet defaults key)) :=
  ⟨rfl, rfl, rfl, rfl, objGet_jsSpread⟩
